import Mathlib

/-
Verification development for the physiological simulation core
(physio_core): glands, blood transport, receptors, reflex, HPA axis,
autonomic integration, vitals and the orchestration tick.

All numeric state is modelled over the reals. Python dictionaries that
are iterated are modelled as association lists (List (String x R));
dictionaries only ever read through .get with a default are modelled as
total functions. The random draw of random.uniform(-0.1, 0.1) in basal
secretion is an explicit parameter u, and the Python round builtin
(used only for display and status values) is an explicit parameter
rnd, universally quantified in all theorems.
-/

noncomputable section
open scoped Classical

/-- clamp(x, lo, hi) = max(lo, min(hi, x)), as defined in several of the
source modules. -/
def clampR (x lo hi : ℝ) : ℝ := max lo (min hi x)

/-- Dictionary read with default: d.get(k, dflt) on an association list
(keys are unique, so the first match is the entry). -/
def dget {α : Type} (d : List (String × α)) (k : String) (dflt : α) : α :=
  match d with
  | [] => dflt
  | p :: rest => if p.1 = k then p.2 else dget rest k dflt

/-- Dictionary write d[k] = v on an association list: replace the entry
if the key is present, else append it. -/
def dset (d : List (String × ℝ)) (k : String) (v : ℝ) : List (String × ℝ) :=
  match d with
  | [] => [(k, v)]
  | p :: rest => if p.1 = k then (k, v) :: rest else p :: dset rest k v

/-- Pointwise update of a total-function model of a dictionary. -/
def funUpdate {α : Type} (f : String → α) (k : String) (v : α) : String → α :=
  fun x => if x = k then v else f x

-- ==========================================================
-- Endocrine gland (logic/endocrine/glands.py, constants.py)
-- ==========================================================

/-- constants.py: ADAPTATION_MIN. -/
def ADAPTATION_MIN : ℝ := 0.1

/-- constants.py: ADAPTATION_MAX. -/
def ADAPTATION_MAX : ℝ := 1

/-- constants.py: DRIVE_MAX. -/
def DRIVE_MAX : ℝ := 10

/-- constants.py: FATIGUE_THRESHOLD_PCT. -/
def FATIGUE_THRESHOLD_PCT : ℝ := 0.15

/-- constants.py: EXHAUSTED_THRESHOLD_PCT. -/
def EXHAUSTED_THRESHOLD_PCT : ℝ := 0.01

/-- Static per-gland configuration extracted in EndocrineGland.init from
the hormone spec. -/
structure GlandSpec where
  inventory_max : ℝ
  refill_rate : ℝ
  max_rate_sec : ℝ
  latency_tau : ℝ
  baseline_pg_ml : ℝ
  drive_cap : ℝ

/-- Raw YAML fields read by EndocrineGland.init; a missing key is None. -/
structure GlandCfgIn where
  max_capacity : Option ℝ
  refill_rate_base : Option ℝ
  max_output_dt : Option ℝ
  latency_sec : Option ℝ
  baseline : Option ℝ

/-- EndocrineGland.init: defaults 1000 / 1 / 10 / 10 / 0, latency floored
at 1 second, drive cap set to DRIVE_MAX. -/
def glandInit (c : GlandCfgIn) : GlandSpec :=
  { inventory_max := c.max_capacity.getD 1000
    refill_rate := c.refill_rate_base.getD 1
    max_rate_sec := c.max_output_dt.getD 10
    latency_tau := max 1 (c.latency_sec.getD 10)
    baseline_pg_ml := c.baseline.getD 0
    drive_cap := DRIVE_MAX }

/-- Mutable gland state dictionary (create_initial_state keys). -/
structure GlandState where
  inventory : ℝ
  adaptation : ℝ
  drive : ℝ
  last_flux_pg : ℝ
  basal_rate_pg_sec : ℝ

/-- EndocrineGland.create_initial_state. -/
def createInitialState (g : GlandSpec) : GlandState :=
  { inventory := g.inventory_max
    adaptation := 1
    drive := 0
    last_flux_pg := 0
    basal_rate_pg_sec := 0 }

/-- EndocrineGland.hill_response: x ** 3 / (2.5 ** 3 + x ** 3), and 0 for
x <= 0. -/
def hillResponse (x : ℝ) : ℝ :=
  if x ≤ 0 then 0 else x ^ 3 / (2.5 ^ 3 + x ^ 3)

/-- EndocrineGland.trigger_nerve_surge: acute release for stimulus at or
above 0.8, returning the released mass (pg) and the updated state. -/
def triggerNerveSurge (g : GlandSpec) (st : GlandState) (stimulus_intensity : ℝ) :
    ℝ × GlandState :=
  if stimulus_intensity < 0.8 then (0, st)
  else
    let surge_fraction := 0.40 * stimulus_intensity
    let potential_pg := st.inventory * surge_fraction
    let released_pg := potential_pg * st.adaptation
    let released_pg := min released_pg st.inventory
    (released_pg,
      { st with
        inventory := st.inventory - released_pg
        drive := min g.drive_cap (st.drive + stimulus_intensity * 5)
        adaptation := max ADAPTATION_MIN (st.adaptation - stimulus_intensity * 0.15)
        last_flux_pg := released_pg })

/-- EndocrineGland.process_step: tonic secretion over dt with basal
production, noise (noise factor 1 + u with u drawn uniformly from
[-0.1, 0.1]) and vagal inhibition; returns released mass and new state. -/
def processStep (g : GlandSpec) (st : GlandState) (stimulus dt inhibition u : ℝ) :
    ℝ × GlandState :=
  let inhibition_mult := 1 - max 0 (min 0.9 inhibition)
  let noise_factor := 1 + u
  let effective_basal := st.basal_rate_pg_sec * noise_factor * inhibition_mult
  let basal_pg := effective_basal * dt
  let inventory1 := min g.inventory_max (st.inventory + g.refill_rate * dt)
  let adaptation1 :=
    if stimulus > 0.05 then max ADAPTATION_MIN (st.adaptation - stimulus * 0.05 * dt)
    else min ADAPTATION_MAX (st.adaptation + 0.02 * dt)
  let drive1 :=
    if stimulus > 0.05 then min g.drive_cap (st.drive + stimulus * dt * 2)
    else st.drive
  let intensity := hillResponse drive1
  let potential_stimulated_pg := g.max_rate_sec * intensity * adaptation1 * dt * inhibition_mult
  let total_potential_pg := potential_stimulated_pg + basal_pg
  let released_pg := min total_potential_pg inventory1
  let inventory2 := inventory1 - released_pg
  let decay_k := 1 / g.latency_tau
  let drive2 := drive1 * Real.exp (-(decay_k * dt))
  let drive3 := if drive2 < 1e-4 then 0 else drive2
  (released_pg,
    { inventory := inventory2
      adaptation := adaptation1
      drive := drive3
      last_flux_pg := released_pg
      basal_rate_pg_sec := st.basal_rate_pg_sec })

/-- EndocrineGland.get_status, restricted to its numeric entries (the
string entries hormone and state are never read numerically by any
consumer); rnd models the Python round builtin. -/
def getStatusDict (rnd : ℝ → ℕ → ℝ) (g : GlandSpec) (st : GlandState) :
    List (String × ℝ) :=
  let inv_pct := st.inventory / max 1 g.inventory_max
  [("inventory_pct", rnd (inv_pct * 100) 2),
   ("adaptation", rnd st.adaptation 3),
   ("drive", rnd st.drive 3),
   ("last_flux_pg", rnd st.last_flux_pg 4)]

-- ==========================================================
-- Blood transport (logic/blood/BloodEngine.py) and the
-- orchestrator baseline clamp (physio_core.py, run_tick)
-- ==========================================================

/-- BloodEngine configuration fields used by decay and influx. -/
structure BloodCfg where
  dist_volume_ml : ℝ
  conc_min : ℝ
  conc_max : ℝ
  base_flow_ml_sec : ℝ
  min_flow : ℝ
  max_flow : ℝ
  flow_coupling : Bool

/-- BloodEngine.apply_decay_with_dt for one hormone with half-life hl:
no-op for dt <= 0; otherwise exponential decay with k = ln 2 / max(1, hl),
multiplied by the clamped flow normalisation when flow coupling is on,
followed by the micro-floor at conc_min and the clamp to
[conc_min, conc_max]. The wall-clock timestamp bookkeeping of the source
carries no numeric content and is omitted. -/
def applyDecayWithDt (cfg : BloodCfg) (hl flow dt conc : ℝ) : ℝ :=
  if dt ≤ 0 then conc
  else
    let k := Real.log 2 / max 1 hl
    let k := if cfg.flow_coupling then k * clampR (flow / cfg.base_flow_ml_sec) 0.5 4 else k
    let current := if conc > 0 then conc * Real.exp (-(k * dt)) else conc
    let current := if current < cfg.conc_min then cfg.conc_min else current
    clampR current cfg.conc_min cfg.conc_max

/-- BloodEngine.apply_hormone_influx: adds mass / distribution volume to
the concentration and clamps. Inside one tick no wall-clock time has
elapsed, so the decay-to-now call at the top of the source function is
the dt <= 0 no-op branch and is omitted. -/
def applyHormoneInflux (cfg : BloodCfg) (conc mass_pg : ℝ) : ℝ :=
  clampR (conc + mass_pg / cfg.dist_volume_ml) cfg.conc_min cfg.conc_max

/-- Baseline clamp of PhysioCore.run_tick: the floor value is
baseline_pg_ml * dist_vol (the variable named baseline_pg in the source),
and it is written into the plasma concentration store. -/
def baselineClamp (dist_vol baseline_pg_ml conc : ℝ) : ℝ :=
  if conc < baseline_pg_ml * dist_vol then baseline_pg_ml * dist_vol else conc

/-- Basal rate calibration in PhysioCore.init:
k * baseline * distribution volume with k = ln 2 / max(1, half-life). -/
def calibratedBasalRate (dist_vol half_life baseline : ℝ) : ℝ :=
  Real.log 2 / max 1 half_life * baseline * dist_vol

-- ==========================================================
-- Receptor transduction (logic/receptor/receptor_unit.py,
-- ReceptorEngine.py)
-- ==========================================================

/-- Static receptor unit parameters (config defaults 50 / 100 / 1 / 1). -/
structure ReceptorCfg where
  kd : ℝ
  bmax : ℝ
  efficacy : ℝ
  hill_n : ℝ

/-- Mutable receptor unit state. -/
structure ReceptorState where
  sensitization : ℝ
  occupation_rate : ℝ

/-- ReceptorUnit.update_plasticity: move sensitization toward a target
(a lowered one above 0.7 occupation, else 1) and clip to [0.1, 2]. -/
def updatePlasticity (rs : ReceptorState) (dt : ℝ) : ReceptorState :=
  let target := if rs.occupation_rate > 0.7 then max 0.2 (1 - (rs.occupation_rate - 0.7)) else 1
  let rate := if rs.occupation_rate > 0.7 then 1 / 3600 else 1 / 7200
  { rs with sensitization :=
      clampR (rs.sensitization + (target - rs.sensitization) * rate * dt) 0.1 2 }

/-- ReceptorUnit.calculate_signal: Hill-Langmuir occupation of the
effective concentration, followed by the plasticity update; for
non-positive effective concentration it returns 0, zeroes the occupation
and skips the plasticity update entirely. -/
def calculateSignal (cfg : ReceptorCfg) (rs : ReceptorState) (concentration dt : ℝ) :
    ℝ × ReceptorState :=
  let effective_conc := concentration * rs.sensitization
  if effective_conc ≤ 0 then (0, { rs with occupation_rate := 0 })
  else
    let occ := effective_conc ^ cfg.hill_n /
      (cfg.kd ^ cfg.hill_n + effective_conc ^ cfg.hill_n)
    let rs1 : ReceptorState := { rs with occupation_rate := occ }
    (occ * cfg.bmax * cfg.efficacy, updatePlasticity rs1 dt)

/-- One zero-concentration call of calculate_signal, keeping the state. -/
def zeroConcStep (cfg : ReceptorCfg) (dt : ℝ) (rs : ReceptorState) : ReceptorState :=
  (calculateSignal cfg rs 0 dt).2

-- ==========================================================
-- Fast reflex (logic/reflex/FastReflexEngine.py)
-- ==========================================================

/-- Tuning block of the reflex config. -/
structure ReflexTuning where
  gain_factor : ℝ
  saturation_cutoff : ℝ
  decay_rate : ℝ
  inhibition_threshold : ℝ

/-- One configured pathway mapping entry. -/
structure ReflexPathway where
  stimulus_type : String
  target_receptor : String
  gain_modifier : ℝ

/-- FastReflexEngine.calculate_surges. The gland status report is an
association list from hormone id to the numeric status dictionary; the
engine looks the target receptor up in it and reads the keys
G_inventory (default 0) and G_max (default 1) from the entry. The
new surges are combined with the carried-over surges decayed by
decay_rate ** dt, and each combined value is capped at the saturation
cutoff. The set-union iteration over receptor ids is modelled as the
duplicate-free concatenation of the two key lists. -/
def calculateSurges (t : ReflexTuning) (paths : List ReflexPathway)
    (current_surges : List (String × ℝ)) (stimuli : List (String × ℝ))
    (gland_status : List (String × List (String × ℝ))) (dt : ℝ) :
    List (String × ℝ) :=
  let new_surges := paths.foldl (fun acc p =>
    let intensity := dget stimuli p.stimulus_type 0
    if intensity ≤ 0 then acc
    else
      let status := dget gland_status p.target_receptor []
      let g_inv := dget status "G_inventory" 0
      let g_max := dget status "G_max" 1
      let surge :=
        if g_inv / max (1e-6) g_max < t.inhibition_threshold then 0
        else g_inv / max (1e-6) g_max * intensity * (t.gain_factor * p.gain_modifier)
      let surge := min surge t.saturation_cutoff
      dset acc p.target_receptor (dget acc p.target_receptor 0 + surge)) []
  let keys := (current_surges.map Prod.fst ++ new_surges.map Prod.fst).dedup
  keys.map (fun r =>
    (r, min (dget new_surges r 0 + dget current_surges r 0 * t.decay_rate ^ dt)
        t.saturation_cutoff))

-- ==========================================================
-- Stress axis (logic/endocrine/HPARegulator.py)
-- ==========================================================

/-- HPARegulator configuration: the EMA alpha, the hypothalamus input
weights, the three stage gains and baseline, the cortisol negative
feedback block (enabled iff the config block is non-empty) and the
output clamp range. -/
structure HPACfg where
  alpha : ℝ
  hypoInput : List (String × ℝ)
  hypoGain : ℝ
  hypoBaseline : ℝ
  pitGain : ℝ
  adrGain : ℝ
  fbEnabled : Bool
  fbThreshold : ℝ
  fbStrength : ℝ
  stimMin : ℝ
  stimMax : ℝ

/-- Internal virtual hormone levels of the regulator. -/
structure HPAState where
  crh : ℝ
  acth : ℝ

/-- HPARegulator.ema. -/
def emaS (alpha prev target : ℝ) : ℝ := alpha * target + (1 - alpha) * prev

/-- The sigmoid of HPARegulator with its overflow guards: exactly 0 below
-50, exactly 1 above 50, the logistic function in between. -/
def hpaSigmoid (x : ℝ) : ℝ :=
  if x < -50 then 0 else if x > 50 then 1 else 1 / (1 + Real.exp (-x))

/-- Stages 1 to 3 of HPARegulator.step: hypothalamic drive from the named
stress inputs, the two EMA-smoothed virtual levels, and the raw
cortisol-directed drive; returns the drive and the updated state. -/
def hpaRawDrive (c : HPACfg) (st : HPAState) (stress : List (String × ℝ)) :
    ℝ × HPAState :=
  let drive := c.hypoInput.foldl (fun acc p => acc + dget stress p.1 0 * p.2) 0
  let crh := emaS c.alpha st.crh (c.hypoBaseline + c.hypoGain * drive)
  let acth := emaS c.alpha st.acth (crh * c.pitGain)
  (acth * c.adrGain, ⟨crh, acth⟩)

/-- Stage 4 of HPARegulator.step: cortisol negative feedback. Applied only
when the plasma snapshot is non-empty and the feedback config block is
present; multiplies the drive by (1 - strength * sigmoid(5 * excess)). -/
def hpaSuppress (c : HPACfg) (raw : ℝ) (snapshotNonempty : Bool) (cor_level : ℝ) : ℝ :=
  if snapshotNonempty && c.fbEnabled then
    raw * (1 - c.fbStrength * hpaSigmoid ((cor_level - c.fbThreshold) * 5))
  else raw

/-- HPARegulator.step: returns the output dictionary (whose only key is
COR) and the updated internal state. The plasma snapshot enters only
through its truthiness and its COR entry, which are passed explicitly.
The dt argument is accepted and ignored, as in the source. -/
def hpaStep (c : HPACfg) (st : HPAState) (stress : List (String × ℝ))
    (snapshotNonempty : Bool) (cor_level : ℝ) (dt : ℝ) :
    List (String × ℝ) × HPAState :=
  let r := hpaRawDrive c st stress
  let _ := dt
  ([("COR", clampR (hpaSuppress c r.1 snapshotNonempty cor_level) c.stimMin c.stimMax)],
   r.2)

-- ==========================================================
-- Circadian modulation (logic/endocrine/CircadianController.py)
-- ==========================================================

/-- One time-of-day window with its amplitude contribution. -/
structure CircWindow where
  start_hour : ℝ
  end_hour : ℝ
  amplitude : ℝ

/-- Per-hormone modulation: the windows plus the optional direct
daylight-suppression gain. -/
structure CircMod where
  windows : List CircWindow
  daylight_suppression : Option ℝ

/-- Circadian configuration: the flattened zeitgeber gain table (the
nesting into groups only groups entries, every signal contributes
input * gain to the same sum), the per-hormone modulation table and the
output clamp range (default [0, 5]). -/
structure CircCfg where
  zeitgeberGains : List (String × ℝ)
  modulation : List (String × CircMod)
  clamp_lo : ℝ
  clamp_hi : ℝ

/-- CircadianController.in_window, wrapping past midnight when the window
start exceeds its end. -/
def inWindow (hour s e : ℝ) : Prop :=
  if s ≤ e then s ≤ hour ∧ hour < e else hour ≥ s ∨ hour < e

/-- CircadianController.step: zeitgeber drive plus the window amplitudes
the current hour falls in, plus the direct daylight-suppression gain when
the daylight input is truthy, clamped to the output range, one entry per
modulated hormone. -/
def circadianStep (c : CircCfg) (z : List (String × ℝ)) (hour : ℝ) :
    List (String × ℝ) :=
  let z_drive := c.zeitgeberGains.foldl (fun acc p => acc + dget z p.1 0 * p.2) 0
  c.modulation.map (fun m =>
    let v := m.2.windows.foldl
      (fun acc w => if inWindow hour w.start_hour w.end_hour then acc + w.amplitude else acc) 0
    let v := match m.2.daylight_suppression with
             | some g => if dget z "daylight" 0 ≠ 0 then v + g else v
             | none => v
    (m.1, clampR (v + z_drive) c.clamp_lo c.clamp_hi))

-- ==========================================================
-- Autonomic integration (logic/autonomic/AutonomicResponseEngine.py)
-- ==========================================================

/-- AutonomicResponseEngine.step: weighted sums of the nested receptor
signals and of the reflex surges onto the two axes, clamp to [0, 1],
then EMA against the previous state; returns the new (sympathetic,
parasympathetic) state and the returned state dictionary. The weight
table lookup with defaults is modelled as a total function. The dt
argument is accepted and ignored, as in the source. -/
def autonomicStep (alpha : ℝ) (w : String → ℝ × ℝ) (st : ℝ × ℝ)
    (receptor_signals : List (String × List (String × ℝ)))
    (reflex_surges : List (String × ℝ)) (dt : ℝ) :
    (ℝ × ℝ) × List (String × ℝ) :=
  let _ := dt
  let acc1 := receptor_signals.foldl
    (fun acc sys => sys.2.foldl
      (fun acc2 hv => (acc2.1 + hv.2 * (w hv.1).1, acc2.2 + hv.2 * (w hv.1).2)) acc)
    ((0 : ℝ), (0 : ℝ))
  let acc2 := reflex_surges.foldl
    (fun acc hv => (acc.1 + hv.2 * (w hv.1).1, acc.2 + hv.2 * (w hv.1).2)) acc1
  let symp := clampR acc2.1 0 1
  let para := clampR acc2.2 0 1
  let symp2 := alpha * symp + (1 - alpha) * st.1
  let para2 := alpha * para + (1 - alpha) * st.2
  ((symp2, para2), [("sympathetic", symp2), ("parasympathetic", para2)])

-- ==========================================================
-- Vitals (logic/vitals/VitalsEngine.py)
-- ==========================================================

/-- Mutable vitals state; initial values 70 / 14 / 0 / 0.5. -/
structure VitalsState where
  bpm : ℝ
  rpm : ℝ
  breath_phase : ℝ
  vagus_tone : ℝ

/-- VitalsEngine initial state. -/
def vitalsInit : VitalsState :=
  { bpm := 70, rpm := 14, breath_phase := 0, vagus_tone := 0.5 }

/-- The dictionary returned by VitalsEngine.step. -/
structure VitalsOut where
  bpm : ℝ
  rpm : ℝ
  vagus_tone : ℝ
  breath_phase : ℝ
  hrv_index : ℝ

/-- Python float modulus for a positive modulus: x - m * floor(x / m). -/
def pymod (x m : ℝ) : ℝ := x - m * ⌊x / m⌋

/-- VitalsEngine.step: EMA-smoothed heart and respiration rates driven by
the autonomic state and the adrenaline boost, breathing phase advance
modulo 2 pi, the RSA display offset, and the vagal tone feedback value
clamped to [0, 1]. Baselines 65 and 12 are the hard-coded instance
fields base_hr and base_rr; rnd models the Python round builtin applied
to the displayed rates. -/
def vitalsStep (rnd : ℝ → ℕ → ℝ) (vs : VitalsState) (ans_state : List (String × ℝ))
    (adrenaline_level dt : ℝ) : VitalsState × VitalsOut :=
  let symp := dget ans_state "sympathetic" 0.5
  let para := dget ans_state "parasympathetic" 0.5
  let adr_boost := max 0 (adrenaline_level / 150)
  let target_bpm := 65 + symp * 80 - para * 20 + adr_boost * 40
  let target_rpm := 12 + symp * 20 - para * 4 + adr_boost * 10
  let alpha := (0.05 : ℝ)
  let bpm := alpha * target_bpm + (1 - alpha) * vs.bpm
  let rpm := alpha * target_rpm + (1 - alpha) * vs.rpm
  let phase_speed := rpm * 2 * Real.pi / 60
  let breath_phase := pymod (vs.breath_phase + phase_speed * dt) (2 * Real.pi)
  let rsa_amplitude := 5 * (1 - symp) + 2
  let rsa_offset := Real.sin breath_phase * rsa_amplitude
  let display_bpm := bpm + rsa_offset
  let raw_vagus := (1 - rpm / 40) * (1 + para * 0.5)
  let vagus := max 0 (min 1 raw_vagus)
  ({ bpm := bpm, rpm := rpm, breath_phase := breath_phase, vagus_tone := vagus },
   { bpm := rnd display_bpm 1, rpm := rnd rpm 1, vagus_tone := vagus,
     breath_phase := breath_phase, hrv_index := rsa_amplitude / 10 })

-- ==========================================================
-- Receptor engine step (logic/receptor/ReceptorEngine.py)
-- ==========================================================

/-- Pointwise update of the two-key receptor state table. -/
def funUpdate2 (f : String → String → ReceptorState) (h s : String)
    (v : ReceptorState) : String → String → ReceptorState :=
  fun h2 s2 => if h2 = h ∧ s2 = s then v else f h2 s2

/-- results.setdefault(s_id, dict())[h_id] = v on the nested signals
dictionary. -/
def dset2 (m : List (String × List (String × ℝ))) (k1 k2 : String) (v : ℝ) :
    List (String × List (String × ℝ)) :=
  match m with
  | [] => [(k1, [(k2, v)])]
  | p :: rest => if p.1 = k1 then (k1, dset p.2 k2 v) :: rest else p :: dset2 rest k1 k2 v

/-- ReceptorEngine.step: for every configured (hormone, system) unit, run
calculate_signal on the plasma concentration of the hormone, add the
nerve surge looked up under the hormone id, and record the total under
signals[system][hormone]; threads the mutated unit states. The
sensitization and occupation diagnostic tables of the result are not
read by any consumer in the tick and are omitted. -/
def receptorEngineStep (recs : List (String × List (String × ReceptorCfg)))
    (states : String → String → ReceptorState) (blood : String → ℝ)
    (nerve_surges : List (String × ℝ)) (dt : ℝ) :
    (String → String → ReceptorState) × List (String × List (String × ℝ)) :=
  recs.foldl (fun acc hr =>
    let conc := blood hr.1
    let surge := dget nerve_surges hr.1 0
    hr.2.foldl (fun acc2 sr =>
      let res := calculateSignal sr.2 (acc2.1 hr.1 sr.1) conc dt
      (funUpdate2 acc2.1 hr.1 sr.1 res.2, dset2 acc2.2 sr.1 hr.1 (res.1 + surge)))
      acc)
    (states, [])

-- ==========================================================
-- Orchestration (physio_core.py)
-- ==========================================================

/-- Engine-wide static configuration assembled in PhysioCore.init.
glandIds is the key iteration order of the hormone spec file; glandSpec
and halfLife give the per-hormone parameters (the half-life default is
300); distVol is the distribution volume the orchestrator reads for
calibration and the baseline clamp. -/
structure PhysioCfg where
  glandIds : List String
  glandSpec : String → GlandSpec
  halfLife : String → ℝ
  distVol : ℝ
  blood : BloodCfg
  hpa : HPACfg
  circ : CircCfg
  stimulusMap : List (String × List (String × ℝ))
  reflexTuning : ReflexTuning
  reflexPaths : List ReflexPathway
  receptors : List (String × List (String × ReceptorCfg))
  autoWeights : String → ℝ × ℝ
  autoAlpha : ℝ

/-- The full mutable engine state owned by PhysioCore. The plasma store
is a defaultdict(float), modelled as a total function; its key set is
glandIds (the hormones loaded by load_hormone_specs, which are also the
only keys ever written by the tick). -/
structure EngineState where
  gland : String → GlandState
  hpaSt : HPAState
  plasma : String → ℝ
  reflex : List (String × ℝ)
  receptor : String → String → ReceptorState
  ansSymp : ℝ
  ansPara : ℝ
  vitals : VitalsState

/-- The composite result dictionary returned by run_tick. -/
structure TickResult where
  autonomic : List (String × ℝ)
  blood : String → ℝ
  signals : List (String × List (String × ℝ))
  vitals : VitalsOut

/-- Stages 1 and 2 of run_tick: HPA and circadian modifiers summed over
the union of their keys, then the static stimulus-catalog mapping of the
raw input chunk, then the clamp of every value to [-1, 1]; also returns
the updated HPA state. The plasma snapshot fed to the HPA regulator is
non-empty iff hormones were loaded, and only its COR entry is read. -/
def tickStimuli (cfg : PhysioCfg) (s : EngineState) (chunk z : List (String × ℝ))
    (hour dt : ℝ) : List (String × ℝ) × HPAState :=
  let _ := hour
  let hpaRes := hpaStep cfg.hpa s.hpaSt chunk (!cfg.glandIds.isEmpty) (s.plasma "COR") dt
  let circOut := circadianStep cfg.circ z hour
  let keys := (hpaRes.1.map Prod.fst ++ circOut.map Prod.fst).dedup
  let endo := keys.map (fun k => (k, dget hpaRes.1 k 0 + dget circOut k 0))
  let endo := chunk.foldl (fun acc p =>
    (dget cfg.stimulusMap p.1 []).foldl
      (fun acc2 hw => dset acc2 hw.1 (dget acc2 hw.1 0 + p.2 * hw.2)) acc)
    endo
  (endo.map (fun p => (p.1, clampR p.2 (-1) 1)), hpaRes.2)

/-- EndocrineController.step: for every gland in catalog order, the acute
nerve surge followed by the tonic step, collecting positive total
releases; u is the per-gland basal noise draw of this tick. -/
def endocrineStepE (cfg : PhysioCfg) (gl : String → GlandState)
    (stimuli : List (String × ℝ)) (dt inhibition : ℝ) (u : String → ℝ) :
    (String → GlandState) × List (String × ℝ) :=
  cfg.glandIds.foldl (fun acc h =>
    let stimulus := dget stimuli h 0
    let st0 := acc.1 h
    let r1 := triggerNerveSurge (cfg.glandSpec h) st0 stimulus
    let r2 := processStep (cfg.glandSpec h) r1.2 stimulus dt inhibition (u h)
    let total := r1.1 + r2.1
    (funUpdate acc.1 h r2.2, if total > 0 then acc.2 ++ [(h, total)] else acc.2))
    (gl, [])

/-- The calibrated basal rate table gland_basal_rates of PhysioCore.init. -/
def basalRateOf (cfg : PhysioCfg) (h : String) : ℝ :=
  calibratedBasalRate cfg.distVol (cfg.halfLife h) (cfg.glandSpec h).baseline_pg_ml

/-- Step 3b of run_tick: inject the released masses, then inject every
calibrated basal mass basal_rate * dt. -/
def influxPhase (cfg : PhysioCfg) (plasma : String → ℝ)
    (released : List (String × ℝ)) (dt : ℝ) : String → ℝ :=
  let p1 := released.foldl
    (fun pl m => funUpdate pl m.1 (applyHormoneInflux cfg.blood (pl m.1) m.2)) plasma
  cfg.glandIds.foldl
    (fun pl h => funUpdate pl h (applyHormoneInflux cfg.blood (pl h) (basalRateOf cfg h * dt)))
    p1

/-- Step 4 of run_tick / BloodEngine.step: clamp the effective flow and
decay every stored hormone. The digestion influx queue stays empty in
the tick path (nothing in it calls apply_delayed_influx), so its
processing loop is a no-op and is omitted. -/
def bloodPhase (cfg : PhysioCfg) (plasma : String → ℝ) (flow_factor dt : ℝ) :
    String → ℝ :=
  let eff_flow := clampR (cfg.blood.base_flow_ml_sec * flow_factor)
    cfg.blood.min_flow cfg.blood.max_flow
  fun h => if cfg.glandIds.contains h then
    applyDecayWithDt cfg.blood (cfg.halfLife h) eff_flow dt (plasma h)
  else plasma h

/-- Step 4b of run_tick: the baseline clamp applied to every gland
hormone. -/
def floorPhase (cfg : PhysioCfg) (plasma : String → ℝ) : String → ℝ :=
  fun h => if cfg.glandIds.contains h then
    baselineClamp cfg.distVol (cfg.glandSpec h).baseline_pg_ml (plasma h)
  else plasma h

/-- EndocrineController.get_status_report: the per-hormone status
dictionaries keyed by hormone id. -/
def statusReport (rnd : ℝ → ℕ → ℝ) (cfg : PhysioCfg) (gl : String → GlandState) :
    List (String × List (String × ℝ)) :=
  cfg.glandIds.map (fun h => (h, getStatusDict rnd (cfg.glandSpec h) (gl h)))

/-- The vagal inhibition read at step 2 of run_tick: the vagus tone
currently stored in the vitals state, i.e. the value computed by the
previous tick (0.5 before the first tick). -/
def tickInhibition (s : EngineState) : ℝ := s.vitals.vagus_tone

/-- PhysioCore.run_tick with the gland inhibition value as an explicit
parameter: regulation and stimulus mapping, endocrine production,
released and basal influx, flow-coupled blood decay, baseline clamp,
reflex surges, receptor transduction, autonomic integration, and the
vitals update that stores the vagal tone for the next tick. -/
def runTickAux (cfg : PhysioCfg) (rnd : ℝ → ℕ → ℝ) (u : String → ℝ)
    (s : EngineState) (chunk z : List (String × ℝ)) (hour dt inhibition : ℝ) :
    EngineState × TickResult :=
  let st1 := tickStimuli cfg s chunk z hour dt
  let e := endocrineStepE cfg s.gland st1.1 dt inhibition u
  let p1 := influxPhase cfg s.plasma e.2 dt
  let flow_modifier := clampR (s.vitals.bpm / 70) 0.5 4
  let p2 := bloodPhase cfg p1 flow_modifier dt
  let p3 := floorPhase cfg p2
  let surges := calculateSurges cfg.reflexTuning cfg.reflexPaths s.reflex chunk
    (statusReport rnd cfg e.1) dt
  let r := receptorEngineStep cfg.receptors s.receptor p3 surges dt
  let a := autonomicStep cfg.autoAlpha cfg.autoWeights (s.ansSymp, s.ansPara) r.2 surges dt
  let v := vitalsStep rnd s.vitals a.2 (p3 "ESC_H01_ADRENALINE") dt
  ({ gland := e.1, hpaSt := st1.2, plasma := p3, reflex := surges,
     receptor := r.1, ansSymp := a.1.1, ansPara := a.1.2, vitals := v.1 },
   { autonomic := a.2, blood := p3, signals := r.2, vitals := v.2 })

/-- PhysioCore.run_tick: the body above with the inhibition read from the
stored vitals state, before this tick recomputes it. -/
def runTick (cfg : PhysioCfg) (rnd : ℝ → ℕ → ℝ) (u : String → ℝ)
    (s : EngineState) (chunk z : List (String × ℝ)) (hour dt : ℝ) :
    EngineState × TickResult :=
  runTickAux cfg rnd u s chunk z hour dt (tickInhibition s)

/-- PhysioCore.step on a list of stimulus chunks: run_tick once per chunk
in list order, each call receiving the same zeitgebers, the same now and
the same full dt; the returned value is overwritten each iteration, so
the final value is the result of the last chunk (none models the empty
initial dictionary returned for an empty list). The noise stream gives
each successive tick its own per-gland basal noise draws; i is the index
of the next draw. -/
def stepChunks (cfg : PhysioCfg) (rnd : ℝ → ℕ → ℝ) (noise : ℕ → String → ℝ)
    (z : List (String × ℝ)) (hour dt : ℝ) :
    ℕ → EngineState → List (List (String × ℝ)) → EngineState × Option TickResult
  | _, s, [] => (s, none)
  | i, s, chunk :: rest =>
    let r := runTick cfg rnd (noise i) s chunk z hour dt
    match rest with
    | [] => (r.1, some r.2)
    | c2 :: rest2 => stepChunks cfg rnd noise z hour dt (i + 1) r.1 (c2 :: rest2)

/-- Specification-side sequential composition: the engine state reached
by running the single-map tick function once per chunk, in list order,
each tick receiving the full dt. -/
def runTicksInOrder (cfg : PhysioCfg) (rnd : ℝ → ℕ → ℝ) (noise : ℕ → String → ℝ)
    (z : List (String × ℝ)) (hour dt : ℝ) :
    ℕ → EngineState → List (List (String × ℝ)) → EngineState
  | _, s, [] => s
  | i, s, chunk :: rest =>
    runTicksInOrder cfg rnd noise z hour dt (i + 1)
      (runTick cfg rnd (noise i) s chunk z hour dt).1 rest

-- ==========================================================
-- Concrete configuration values used by the scenario theorems
-- ==========================================================

/-- The blood configuration of the scenario in the specification:
distribution volume 3000 mL, concentration range [0, 10000] (the source
safety defaults), base cardiac output 80 mL/s with safety range
[40, 300], flow-coupled clearance disabled (the source default). -/
def bloodCfgScenario : BloodCfg :=
  { dist_volume_ml := 3000, conc_min := 0, conc_max := 10000,
    base_flow_ml_sec := 80, min_flow := 40, max_flow := 300,
    flow_coupling := false }

/-- The reflex tuning defaults of FastReflexEngine: gain factor 2.5,
saturation cutoff 1.2, decay rate 0.9, inhibition threshold 0.05. -/
def reflexTuningDefault : ReflexTuning :=
  { gain_factor := 2.5, saturation_cutoff := 1.2,
    decay_rate := 0.9, inhibition_threshold := 0.05 }

/-- A concrete HPA configuration with the source defaults: smoothing
alpha 0.05, hypothalamic input weight 1 on stress_signal, gain 1,
baseline 0.1, pituitary gain 0.9, adrenal gain 1, cortisol feedback
enabled with threshold 1 and strength 0.7, output clamp [0, 5]. -/
def hpaCfgDefault : HPACfg :=
  { alpha := 0.05, hypoInput := [("stress_signal", 1)], hypoGain := 1,
    hypoBaseline := 0.1, pitGain := 0.9, adrGain := 1,
    fbEnabled := true, fbThreshold := 1, fbStrength := 0.7,
    stimMin := 0, stimMax := 5 }

/-- The effective decay constant of BloodEngine.apply_decay_with_dt:
ln 2 / max(1, half-life), times the clamped flow normalisation when flow
coupling is enabled. -/
def decayRateK (bc : BloodCfg) (hl flow : ℝ) : ℝ :=
  if bc.flow_coupling then
    Real.log 2 / max 1 hl * clampR (flow / bc.base_flow_ml_sec) 0.5 4
  else Real.log 2 / max 1 hl

/-- Gland parameter sanity: the configured capacities and rates are
non-negative. -/
def GlandParamsOK (g : GlandSpec) : Prop :=
  0 ≤ g.inventory_max ∧ 0 ≤ g.refill_rate ∧ 0 ≤ g.max_rate_sec

/-- The bounded-state invariant of a gland state: inventory within
[0, capacity], adaptation within [ADAPTATION_MIN, ADAPTATION_MAX], and a
non-negative calibrated basal rate. -/
def GlandStateOK (g : GlandSpec) (st : GlandState) : Prop :=
  0 ≤ st.inventory ∧ st.inventory ≤ g.inventory_max ∧
  ADAPTATION_MIN ≤ st.adaptation ∧ st.adaptation ≤ ADAPTATION_MAX ∧
  0 ≤ st.basal_rate_pg_sec

-- ==========================================================
-- Helper lemmas
-- ==========================================================

theorem clampR_bounds (x lo hi : ℝ) (h : lo ≤ hi) :
    lo ≤ clampR x lo hi ∧ clampR x lo hi ≤ hi := by
  unfold clampR
  constructor
  · exact le_max_left _ _
  · exact max_le h (min_le_left _ _)

theorem clampR_eq_self (x lo hi : ℝ) (h1 : lo ≤ x) (h2 : x ≤ hi) :
    clampR x lo hi = x := by
  unfold clampR
  rw [min_eq_right h2, max_eq_right h1]

theorem hillResponse_nonneg (x : ℝ) : 0 ≤ hillResponse x := by
  unfold hillResponse
  split
  · exact le_rfl
  · rename_i h
    push_neg at h
    positivity

theorem hillResponse_le_one (x : ℝ) : hillResponse x ≤ 1 := by
  unfold hillResponse
  split
  · norm_num
  · rename_i h
    push_neg at h
    rw [div_le_one (by positivity)]
    nlinarith [pow_pos h 3]

theorem hpaSigmoid_nonneg (x : ℝ) : 0 ≤ hpaSigmoid x := by
  unfold hpaSigmoid
  split
  · exact le_rfl
  · split
    · norm_num
    · positivity

theorem hpaSigmoid_le_one (x : ℝ) : hpaSigmoid x ≤ 1 := by
  unfold hpaSigmoid
  split
  · norm_num
  · split
    · exact le_rfl
    · rw [div_le_one (by positivity)]
      nlinarith [Real.exp_pos (-x)]

theorem exp_neg_le_inv_one_add (x : ℝ) (hx : 0 ≤ x) :
    Real.exp (-x) ≤ (1 + x)⁻¹ := by
  have h1 : 0 < 1 + x := by linarith
  have h2 : 1 + x ≤ Real.exp x := by
    have := Real.add_one_le_exp x
    linarith
  rw [Real.exp_neg]
  exact inv_anti₀ h1 h2

-- ==========================================================
-- Claim theorems
-- ==========================================================

/-- Claim C1 (code bug): the post-decay floor of run_tick does not reset
a low concentration to the configured baseline concentration. With the
scenario values baseline 0.1 pg/mL and distribution volume 3000 mL, a
plasma concentration of 0.2 pg/mL - which is already above the baseline -
is rewritten to 300 pg/mL, i.e. to baseline times distribution volume (a
mass, not a concentration), which differs from the baseline the claim
says the floor equals. -/
theorem claim_C1_floor_is_baseline_times_volume :
    baselineClamp 3000 0.1 0.2 = 300 ∧
    (300 : ℝ) = 0.1 * 3000 ∧
    (300 : ℝ) ≠ 0.1 ∧
    ¬ ((0.2 : ℝ) < 0.1) := by
  refine ⟨?_, by norm_num, by norm_num, by norm_num⟩
  unfold baselineClamp
  rw [if_pos (by norm_num)]
  norm_num

/-- Claim C6 (confirmed): a gland constructed from any config, in state
inventory 1000 and adaptation 1, releases exactly
1000 x 0.40 x 0.9 x 1 = 360 on a 0.9 stimulus, leaving inventory 640,
raising drive by 0.9 x 5 capped at the drive maximum 10, and lowering
adaptation to 0.865; any stimulus below 0.8 releases 0 and leaves the
state unchanged. -/
theorem claim_C6_nerve_surge_scenario (c : GlandCfgIn) (d f b : ℝ) :
    triggerNerveSurge (glandInit c) ⟨1000, 1, d, f, b⟩ 0.9
      = (360, ⟨640, 0.865, min 10 (d + 4.5), 360, b⟩)
    ∧ ∀ (s : ℝ) (st : GlandState), s < 0.8 →
        triggerNerveSurge (glandInit c) st s = (0, st) := by
  constructor
  · norm_num [triggerNerveSurge, glandInit, ADAPTATION_MIN, DRIVE_MAX,
      min_def, max_def, Prod.ext_iff, GlandState.mk.injEq]
  · intro s st hs
    unfold triggerNerveSurge
    rw [if_pos hs]

theorem claim_C6_witness :
    triggerNerveSurge (glandInit ⟨none, none, none, none, none⟩) ⟨1000, 1, 0, 0, 0⟩ 0.9
      = (360, ⟨640, 0.865, min 10 ((0 : ℝ) + 4.5), 360, 0⟩)
    ∧ triggerNerveSurge (glandInit ⟨none, none, none, none, none⟩) ⟨1, 1, 1, 1, 1⟩ 0.5
      = (0, ⟨1, 1, 1, 1, 1⟩) :=
  ⟨(claim_C6_nerve_surge_scenario ⟨none, none, none, none, none⟩ 0 0 0).1,
   (claim_C6_nerve_surge_scenario ⟨none, none, none, none, none⟩ 0 0 0).2
     0.5 ⟨1, 1, 1, 1, 1⟩ (by norm_num)⟩

/-- Claim C10 (confirmed): whenever the effective concentration
(concentration times sensitization) is non-positive, calculate_signal
returns 0, zeroes the occupation, and leaves sensitization exactly
unchanged because the plasticity update is skipped; consequently any
number of zero-concentration calls leaves sensitization unchanged - it
does not recover toward 1. -/
theorem claim_C10_zero_conc_skips_plasticity (cfg : ReceptorCfg)
    (rs : ReceptorState) (conc dt : ℝ) :
    (conc * rs.sensitization ≤ 0 →
      (calculateSignal cfg rs conc dt).1 = 0
      ∧ (calculateSignal cfg rs conc dt).2.occupation_rate = 0
      ∧ (calculateSignal cfg rs conc dt).2.sensitization = rs.sensitization)
    ∧ ∀ n : ℕ, ((zeroConcStep cfg dt)^[n] rs).sensitization = rs.sensitization := by
  have hz : ∀ y : ReceptorState, (zeroConcStep cfg dt y).sensitization = y.sensitization := by
    intro y
    unfold zeroConcStep calculateSignal
    rw [if_pos (by simp : (0 : ℝ) * y.sensitization ≤ 0)]
  constructor
  · intro h
    unfold calculateSignal
    rw [if_pos h]
    exact ⟨rfl, rfl, rfl⟩
  · intro n
    induction n with
    | zero => rfl
    | succ k ih => rw [Function.iterate_succ_apply', hz, ih]

theorem claim_C10_witness :
    ((calculateSignal ⟨50, 100, 1, 1⟩ ⟨1, 0.5⟩ 0 1).1 = 0
      ∧ (calculateSignal ⟨50, 100, 1, 1⟩ ⟨1, 0.5⟩ 0 1).2.occupation_rate = 0
      ∧ (calculateSignal ⟨50, 100, 1, 1⟩ ⟨1, 0.5⟩ 0 1).2.sensitization = 1)
    ∧ ((zeroConcStep ⟨50, 100, 1, 1⟩ 1)^[3] ⟨1, 0.5⟩).sensitization = 1 :=
  ⟨(claim_C10_zero_conc_skips_plasticity ⟨50, 100, 1, 1⟩ ⟨1, 0.5⟩ 0 1).1 (by simp),
   (claim_C10_zero_conc_skips_plasticity ⟨50, 100, 1, 1⟩ ⟨1, 0.5⟩ 0 1).2 3⟩

/-- Claim C3 (code bug): the reflex engine reads the status keys
G_inventory and G_max, but the gland status report only carries
inventory_pct, adaptation, drive and last_flux_pg, so the relative
inventory evaluates to 0 / 1, falls below the inhibition threshold, and
every pathway surge is suppressed to 0 - for any gland state (including
full inventory), any rounding function, a positive stimulus of 1 and an
empty carry-over. The formula of the claim would instead give
2.5 capped at 1.2, which is positive. -/
theorem claim_C3_reflex_surge_always_zero (rnd : ℝ → ℕ → ℝ) (g : GlandSpec)
    (st : GlandState) :
    dget (calculateSurges reflexTuningDefault
        [⟨"acute_threat", "ESC_H01_ADRENALINE", 1⟩] []
        [("acute_threat", 1)]
        [("ESC_H01_ADRENALINE", getStatusDict rnd g st)] 1)
      "ESC_H01_ADRENALINE" 0 = 0
    ∧ min ((1000 : ℝ) / 1000 * 1 * (2.5 * 1)) 1.2 = 1.2
    ∧ (1.2 : ℝ) ≠ 0 := by
  refine ⟨?_, by rw [min_eq_right (by norm_num)], by norm_num⟩
  simp [calculateSurges, reflexTuningDefault, getStatusDict, dget, dset]
  norm_num [dget]

/-- Claim C8, counterexample to strictness: with the default feedback
configuration (threshold 1, strength 0.7) and a plasma cortisol level of
12, the guarded sigmoid saturates to exactly 1, so the suppressed drive
equals (1 - strength) times the raw drive instead of strictly
exceeding it. -/
theorem claim_C8_counterexample :
    hpaSuppress hpaCfgDefault 1 true 12 = (1 - 0.7) * 1
    ∧ ¬ ((1 - (0.7 : ℝ)) * 1 < hpaSuppress hpaCfgDefault 1 true 12) := by
  have h : hpaSuppress hpaCfgDefault 1 true 12 = (1 - 0.7) * 1 := by
    norm_num [hpaSuppress, hpaCfgDefault, hpaSigmoid]
  exact ⟨h, by rw [h]; exact lt_irrefl _⟩

/-- Claim C8 as amended: the stress-axis output is a stimulus for the
single key COR, equal to the suppressed drive clamped to the configured
range; and the suppressed drive is always at least (strictly greater
only while the sigmoid stays below saturation) (1 - strength) times the
unsuppressed drive, so suppression never exceeds the configured
strength. -/
theorem claim_C8_amended (c : HPACfg) (st : HPAState) (stress : List (String × ℝ))
    (b : Bool) (cor dt : ℝ) :
    (hpaStep c st stress b cor dt).1
      = [("COR", clampR (hpaSuppress c (hpaRawDrive c st stress).1 b cor)
          c.stimMin c.stimMax)]
    ∧ ∀ raw : ℝ, 0 ≤ raw → 0 ≤ c.fbStrength → c.fbStrength ≤ 1 →
        (1 - c.fbStrength) * raw ≤ hpaSuppress c raw b cor := by
  constructor
  · rfl
  · intro raw h0 h1 h2
    unfold hpaSuppress
    split
    · have hs0 := hpaSigmoid_nonneg ((cor - c.fbThreshold) * 5)
      have hs1 := hpaSigmoid_le_one ((cor - c.fbThreshold) * 5)
      nlinarith [mul_nonneg (mul_nonneg h1 h0) (sub_nonneg.mpr hs1)]
    · nlinarith

theorem claim_C8_witness :
    (hpaStep hpaCfgDefault ⟨1, 1⟩ [] true 0 1).1
      = [("COR", clampR (hpaSuppress hpaCfgDefault
          (hpaRawDrive hpaCfgDefault ⟨1, 1⟩ []).1 true 0)
          hpaCfgDefault.stimMin hpaCfgDefault.stimMax)]
    ∧ (1 - hpaCfgDefault.fbStrength) * 1 ≤ hpaSuppress hpaCfgDefault 1 true 0 :=
  ⟨(claim_C8_amended hpaCfgDefault ⟨1, 1⟩ [] true 0 1).1,
   (claim_C8_amended hpaCfgDefault ⟨1, 1⟩ [] true 0 1).2 1 (by norm_num)
     (by norm_num [hpaCfgDefault]) (by norm_num [hpaCfgDefault])⟩

theorem decayRateK_nonneg (bc : BloodCfg) (hl flow : ℝ) : 0 ≤ decayRateK bc hl flow := by
  unfold decayRateK
  have h1 : 0 ≤ Real.log 2 / max 1 hl :=
    div_nonneg (Real.log_nonneg (by norm_num)) (le_trans zero_le_one (le_max_left _ _))
  split
  · exact mul_nonneg h1 (le_trans (by norm_num) (le_max_left (0.5 : ℝ) _))
  · exact h1

theorem applyDecay_core (bc : BloodCfg) (hl flow dt conc : ℝ) (hdt : 0 < dt) :
    applyDecayWithDt bc hl flow dt conc =
      clampR
        (if (if conc > 0 then conc * Real.exp (-(decayRateK bc hl flow * dt)) else conc)
            < bc.conc_min then bc.conc_min
         else (if conc > 0 then conc * Real.exp (-(decayRateK bc hl flow * dt)) else conc))
        bc.conc_min bc.conc_max := by
  unfold applyDecayWithDt decayRateK
  rw [if_neg (not_le.mpr hdt)]

theorem exp_decay_le_one (bc : BloodCfg) (hl flow dt : ℝ) (hdt : 0 ≤ dt) :
    Real.exp (-(decayRateK bc hl flow * dt)) ≤ 1 :=
  Real.exp_le_one_iff.mpr (by nlinarith [decayRateK_nonneg bc hl flow])

theorem applyDecay_eq_exp (bc : BloodCfg) (hl flow dt conc : ℝ)
    (hdt : 0 < dt) (hc : 0 < conc) (hcmax : conc ≤ bc.conc_max)
    (hmin : bc.conc_min ≤ conc * Real.exp (-(decayRateK bc hl flow * dt))) :
    applyDecayWithDt bc hl flow dt conc
      = conc * Real.exp (-(decayRateK bc hl flow * dt)) := by
  have hexp1 := exp_decay_le_one bc hl flow dt hdt.le
  have hle : conc * Real.exp (-(decayRateK bc hl flow * dt)) ≤ bc.conc_max := by
    nlinarith [Real.exp_pos (-(decayRateK bc hl flow * dt))]
  rw [applyDecay_core bc hl flow dt conc hdt, if_pos hc, if_neg (not_lt.mpr hmin)]
  exact clampR_eq_self _ _ _ hmin hle

theorem applyDecay_le_self (bc : BloodCfg) (hl flow dt conc : ℝ)
    (hminc : bc.conc_min ≤ conc) (hmaxc : conc ≤ bc.conc_max) :
    applyDecayWithDt bc hl flow dt conc ≤ conc := by
  rcases le_or_lt dt 0 with hdt | hdt
  · unfold applyDecayWithDt
    rw [if_pos hdt]
  · rw [applyDecay_core bc hl flow dt conc hdt]
    have hE1 := exp_decay_le_one bc hl flow dt hdt.le
    have hE0 : 0 < Real.exp (-(decayRateK bc hl flow * dt)) := Real.exp_pos _
    by_cases hc : conc > 0
    · rw [if_pos hc]
      have hv : conc * Real.exp (-(decayRateK bc hl flow * dt)) ≤ conc := by nlinarith
      by_cases hf : conc * Real.exp (-(decayRateK bc hl flow * dt)) < bc.conc_min
      · rw [if_pos hf]
        unfold clampR
        rw [min_eq_right (le_trans hminc hmaxc), max_self]
        exact hminc
      · rw [if_neg hf]
        push_neg at hf
        rw [clampR_eq_self _ _ _ hf (le_trans hv hmaxc)]
        exact hv
    · rw [if_neg hc, if_neg (not_lt.mpr hminc)]
      rw [clampR_eq_self _ _ _ hminc hmaxc]

theorem applyDecay_mem (bc : BloodCfg) (hl flow dt conc : ℝ)
    (h : bc.conc_min ≤ bc.conc_max) (h1 : bc.conc_min ≤ conc) (h2 : conc ≤ bc.conc_max) :
    bc.conc_min ≤ applyDecayWithDt bc hl flow dt conc
    ∧ applyDecayWithDt bc hl flow dt conc ≤ bc.conc_max := by
  unfold applyDecayWithDt
  split
  · exact ⟨h1, h2⟩
  · exact clampR_bounds _ _ _ h

/-- Claim C7, counterexample: the catalog invariant only demands a
positive half-life, but the decay constant in the code is
ln 2 / max(1, half-life). For half-life 0.5 s, one decay step of one
second leaves half of the concentration, while the decay law of the
claim, k = ln 2 / half-life, would leave a quarter. -/
theorem claim_C7_counterexample :
    applyDecayWithDt bloodCfgScenario (1/2) 80 1 1 = 1/2
    ∧ (1 : ℝ) * Real.exp (-(Real.log 2 / (1/2) * 1)) = 1/4
    ∧ (1/2 : ℝ) ≠ 1/4 := by
  have hhalf : Real.exp (-Real.log 2) = 1/2 := by
    rw [Real.exp_neg, Real.exp_log (by norm_num : (0:ℝ) < 2)]
    norm_num
  have hk : decayRateK bloodCfgScenario (1/2) 80 = Real.log 2 := by
    unfold decayRateK bloodCfgScenario
    norm_num [max_eq_left (by norm_num : (1/2 : ℝ) ≤ 1)]
  refine ⟨?_, ?_, by norm_num⟩
  · rw [applyDecay_eq_exp bloodCfgScenario (1/2) 80 1 1 (by norm_num) (by norm_num)
      (by norm_num [bloodCfgScenario]) (by simp [bloodCfgScenario]; positivity), hk,
      mul_one, one_mul, hhalf]
  · rw [show Real.log 2 / (1/2) * 1 = Real.log 2 + Real.log 2 by ring, neg_add,
      Real.exp_add, hhalf]
    norm_num

/-- Claim C7 as amended: the decay constant is ln 2 / max(1, half-life) -
which agrees with the claim for every half-life of at least one second -
optionally multiplied by the clamped flow normalisation; one blood step
over a positive dt with positive concentration multiplies the
concentration by exp(-k dt) (whenever the result stays above the
concentration floor), and for any non-negative dt the step never
increases a concentration lying within its bounds. -/
theorem claim_C7_amended (bc : BloodCfg) (hl flow dt conc : ℝ) :
    (1 ≤ hl → decayRateK bc hl flow
        = (if bc.flow_coupling then
             Real.log 2 / hl * clampR (flow / bc.base_flow_ml_sec) 0.5 4
           else Real.log 2 / hl))
    ∧ (0 < dt → 0 < conc → conc ≤ bc.conc_max →
        bc.conc_min ≤ conc * Real.exp (-(decayRateK bc hl flow * dt)) →
        applyDecayWithDt bc hl flow dt conc
          = conc * Real.exp (-(decayRateK bc hl flow * dt)))
    ∧ (0 ≤ dt → bc.conc_min ≤ conc → conc ≤ bc.conc_max →
        applyDecayWithDt bc hl flow dt conc ≤ conc) := by
  refine ⟨fun h => ?_,
    fun h1 h2 h3 h4 => applyDecay_eq_exp bc hl flow dt conc h1 h2 h3 h4,
    fun h1 h2 h3 => applyDecay_le_self bc hl flow dt conc h2 h3⟩
  unfold decayRateK
  rw [max_eq_right h]

theorem claim_C7_witness :
    decayRateK bloodCfgScenario 600 80
      = (if bloodCfgScenario.flow_coupling then
           Real.log 2 / 600 * clampR (80 / bloodCfgScenario.base_flow_ml_sec) 0.5 4
         else Real.log 2 / 600)
    ∧ applyDecayWithDt bloodCfgScenario 600 80 1 1
      = 1 * Real.exp (-(decayRateK bloodCfgScenario 600 80 * 1))
    ∧ applyDecayWithDt bloodCfgScenario 600 80 1 1 ≤ 1 :=
  ⟨(claim_C7_amended bloodCfgScenario 600 80 1 1).1 (by norm_num),
   (claim_C7_amended bloodCfgScenario 600 80 1 1).2.1 (by norm_num) (by norm_num)
     (by norm_num [bloodCfgScenario]) (by simp [bloodCfgScenario]; positivity),
   (claim_C7_amended bloodCfgScenario 600 80 1 1).2.2 (by norm_num)
     (by norm_num [bloodCfgScenario]) (by norm_num [bloodCfgScenario])⟩

theorem trigger_preserves_ok (g : GlandSpec) (st : GlandState) (s : ℝ)
    (hg : GlandParamsOK g) (hst : GlandStateOK g st) :
    GlandStateOK g (triggerNerveSurge g st s).2 := by
  obtain ⟨hgM, hgR, hgS⟩ := hg
  obtain ⟨hi0, hiM, ha0, ha1, hb⟩ := hst
  unfold GlandStateOK ADAPTATION_MIN ADAPTATION_MAX at *
  unfold triggerNerveSurge ADAPTATION_MIN
  split
  · exact ⟨hi0, hiM, ha0, ha1, hb⟩
  · rename_i hs
    push_neg at hs
    dsimp only
    have h040 : (0 : ℝ) ≤ 0.40 * s := by linarith
    have hrel0 : 0 ≤ min (st.inventory * (0.40 * s) * st.adaptation) st.inventory :=
      le_min (mul_nonneg (mul_nonneg hi0 h040) (by linarith)) hi0
    have hrel1 : min (st.inventory * (0.40 * s) * st.adaptation) st.inventory
        ≤ st.inventory := min_le_right _ _
    refine ⟨by linarith, by linarith, le_max_left _ _, ?_, hb⟩
    refine max_le (by norm_num) (by nlinarith)

theorem process_preserves_ok (g : GlandSpec) (st : GlandState) (stimulus dt inh u : ℝ)
    (hg : GlandParamsOK g) (hst : GlandStateOK g st) (hdt : 0 ≤ dt) (hu : -1 ≤ u) :
    GlandStateOK g (processStep g st stimulus dt inh u).2 := by
  obtain ⟨hgM, hgR, hgS⟩ := hg
  obtain ⟨hi0, hiM, ha0, ha1, hb⟩ := hst
  have hm1 : max (0 : ℝ) (min 0.9 inh) ≤ 0.9 := max_le (by norm_num) (min_le_left _ _)
  have hm0 : (0 : ℝ) ≤ max 0 (min 0.9 inh) := le_max_left _ _
  have hM0 : (0 : ℝ) ≤ 1 - max 0 (min 0.9 inh) := by linarith
  have hI10 : 0 ≤ min g.inventory_max (st.inventory + g.refill_rate * dt) :=
    le_min hgM (add_nonneg hi0 (mul_nonneg hgR hdt))
  have hI1M : min g.inventory_max (st.inventory + g.refill_rate * dt) ≤ g.inventory_max :=
    min_le_left _ _
  have hbas : 0 ≤ st.basal_rate_pg_sec * (1 + u) * (1 - max 0 (min 0.9 inh)) * dt :=
    mul_nonneg (mul_nonneg (mul_nonneg hb (by linarith)) hM0) hdt
  unfold GlandStateOK ADAPTATION_MIN ADAPTATION_MAX at *
  unfold processStep ADAPTATION_MIN ADAPTATION_MAX
  dsimp only
  split_ifs with hstim
  · have hA0 : (0.1 : ℝ) ≤ max 0.1 (st.adaptation - stimulus * 0.05 * dt) := le_max_left _ _
    have hA1 : max (0.1 : ℝ) (st.adaptation - stimulus * 0.05 * dt) ≤ 1 :=
      max_le (by norm_num) (by nlinarith)
    have hpot : 0 ≤ g.max_rate_sec
        * hillResponse (min g.drive_cap (st.drive + stimulus * dt * 2))
        * max 0.1 (st.adaptation - stimulus * 0.05 * dt) * dt
        * (1 - max 0 (min 0.9 inh)) :=
      mul_nonneg (mul_nonneg (mul_nonneg (mul_nonneg hgS
        (hillResponse_nonneg _)) (by linarith)) hdt) hM0
    have hrel0 : 0 ≤ min
        (g.max_rate_sec * hillResponse (min g.drive_cap (st.drive + stimulus * dt * 2))
          * max 0.1 (st.adaptation - stimulus * 0.05 * dt) * dt
          * (1 - max 0 (min 0.9 inh))
         + st.basal_rate_pg_sec * (1 + u) * (1 - max 0 (min 0.9 inh)) * dt)
        (min g.inventory_max (st.inventory + g.refill_rate * dt)) :=
      le_min (by linarith) hI10
    have hrel1 := min_le_right
        (g.max_rate_sec * hillResponse (min g.drive_cap (st.drive + stimulus * dt * 2))
          * max 0.1 (st.adaptation - stimulus * 0.05 * dt) * dt
          * (1 - max 0 (min 0.9 inh))
         + st.basal_rate_pg_sec * (1 + u) * (1 - max 0 (min 0.9 inh)) * dt)
        (min g.inventory_max (st.inventory + g.refill_rate * dt))
    exact ⟨by linarith, by linarith, hA0, hA1, hb⟩
  · have hA0 : (0.1 : ℝ) ≤ min 1 (st.adaptation + 0.02 * dt) :=
      le_min (by norm_num) (by nlinarith)
    have hA1 : min (1 : ℝ) (st.adaptation + 0.02 * dt) ≤ 1 := min_le_left _ _
    have hpot : 0 ≤ g.max_rate_sec * hillResponse st.drive
        * min 1 (st.adaptation + 0.02 * dt) * dt * (1 - max 0 (min 0.9 inh)) :=
      mul_nonneg (mul_nonneg (mul_nonneg (mul_nonneg hgS
        (hillResponse_nonneg _)) (by linarith)) hdt) hM0
    have hrel0 : 0 ≤ min
        (g.max_rate_sec * hillResponse st.drive * min 1 (st.adaptation + 0.02 * dt) * dt
          * (1 - max 0 (min 0.9 inh))
         + st.basal_rate_pg_sec * (1 + u) * (1 - max 0 (min 0.9 inh)) * dt)
        (min g.inventory_max (st.inventory + g.refill_rate * dt)) :=
      le_min (by linarith) hI10
    have hrel1 := min_le_right
        (g.max_rate_sec * hillResponse st.drive * min 1 (st.adaptation + 0.02 * dt) * dt
          * (1 - max 0 (min 0.9 inh))
         + st.basal_rate_pg_sec * (1 + u) * (1 - max 0 (min 0.9 inh)) * dt)
        (min g.inventory_max (st.inventory + g.refill_rate * dt))
    exact ⟨by linarith, by linarith, hA0, hA1, hb⟩

theorem plasticity_sens_mem (rs : ReceptorState) (dt : ℝ) :
    0.1 ≤ (updatePlasticity rs dt).sensitization
    ∧ (updatePlasticity rs dt).sensitization ≤ 2 := by
  unfold updatePlasticity
  refine clampR_bounds _ _ _ ?_
  norm_num

theorem calcSignal_occ_mem (rc : ReceptorCfg) (rs : ReceptorState) (conc dt : ℝ)
    (hkd : 0 < rc.kd) :
    0 ≤ (calculateSignal rc rs conc dt).2.occupation_rate
    ∧ (calculateSignal rc rs conc dt).2.occupation_rate ≤ 1 := by
  unfold calculateSignal
  dsimp only
  split
  · exact ⟨le_rfl, by norm_num⟩
  · rename_i h
    push_neg at h
    have hup : ∀ (x : ReceptorState) (d : ℝ),
        (updatePlasticity x d).occupation_rate = x.occupation_rate := fun x d => rfl
    rw [hup]
    have he : 0 < (conc * rs.sensitization) ^ rc.hill_n := Real.rpow_pos_of_pos h _
    have hk : 0 < rc.kd ^ rc.hill_n := Real.rpow_pos_of_pos hkd _
    constructor
    · exact div_nonneg he.le (by linarith)
    · rw [div_le_one (by linarith)]
      linarith

/-- Claim C5 (confirmed): the bounded-state invariants are preserved by
the state-mutating operations - the gland tick (acute surge followed by
the tonic step) keeps inventory in [0, capacity] and adaptation in
[0.1, 1]; the receptor plasticity update keeps sensitization in
[0.1, 2]; the blood decay step keeps every concentration in
[conc_min, conc_max]; and calculate_signal keeps the occupation fraction
in [0, 1]. -/
theorem claim_C5_bounded_state :
    (∀ (g : GlandSpec) (st : GlandState) (stimulus dt inh u : ℝ),
        GlandParamsOK g → GlandStateOK g st → 0 ≤ dt → -1 ≤ u →
        GlandStateOK g
          (processStep g (triggerNerveSurge g st stimulus).2 stimulus dt inh u).2)
    ∧ (∀ (rs : ReceptorState) (dt : ℝ),
        0.1 ≤ (updatePlasticity rs dt).sensitization
        ∧ (updatePlasticity rs dt).sensitization ≤ 2)
    ∧ (∀ (bc : BloodCfg) (hl flow dt conc : ℝ),
        bc.conc_min ≤ bc.conc_max → bc.conc_min ≤ conc → conc ≤ bc.conc_max →
        bc.conc_min ≤ applyDecayWithDt bc hl flow dt conc
        ∧ applyDecayWithDt bc hl flow dt conc ≤ bc.conc_max)
    ∧ (∀ (rc : ReceptorCfg) (rs : ReceptorState) (conc dt : ℝ), 0 < rc.kd →
        0 ≤ (calculateSignal rc rs conc dt).2.occupation_rate
        ∧ (calculateSignal rc rs conc dt).2.occupation_rate ≤ 1) :=
  ⟨fun g st stimulus dt inh u hg hst hdt hu =>
    process_preserves_ok g (triggerNerveSurge g st stimulus).2 stimulus dt inh u hg
      (trigger_preserves_ok g st stimulus hg hst) hdt hu,
   fun rs dt => plasticity_sens_mem rs dt,
   fun bc hl flow dt conc h h1 h2 => applyDecay_mem bc hl flow dt conc h h1 h2,
   fun rc rs conc dt hkd => calcSignal_occ_mem rc rs conc dt hkd⟩

theorem claim_C5_witness :
    GlandStateOK ⟨1000, 1, 10, 10, 0.1, 10⟩
      (processStep ⟨1000, 1, 10, 10, 0.1, 10⟩
        (triggerNerveSurge ⟨1000, 1, 10, 10, 0.1, 10⟩ ⟨1000, 1, 0, 0, 0⟩ 0).2 0 0 0 0).2
    ∧ (0.1 ≤ (updatePlasticity ⟨1, 0⟩ 1).sensitization
        ∧ (updatePlasticity ⟨1, 0⟩ 1).sensitization ≤ 2)
    ∧ (bloodCfgScenario.conc_min ≤ applyDecayWithDt bloodCfgScenario 600 80 1 1
        ∧ applyDecayWithDt bloodCfgScenario 600 80 1 1 ≤ bloodCfgScenario.conc_max)
    ∧ (0 ≤ (calculateSignal ⟨50, 100, 1, 1⟩ ⟨1, 0⟩ 0 1).2.occupation_rate
        ∧ (calculateSignal ⟨50, 100, 1, 1⟩ ⟨1, 0⟩ 0 1).2.occupation_rate ≤ 1) :=
  ⟨claim_C5_bounded_state.1 ⟨1000, 1, 10, 10, 0.1, 10⟩ ⟨1000, 1, 0, 0, 0⟩ 0 0 0 0
      (by norm_num [GlandParamsOK]) (by norm_num [GlandStateOK, ADAPTATION_MIN, ADAPTATION_MAX])
      le_rfl (by norm_num),
   claim_C5_bounded_state.2.1 ⟨1, 0⟩ 1,
   claim_C5_bounded_state.2.2.1 bloodCfgScenario 600 80 1 1
      (by norm_num [bloodCfgScenario]) (by norm_num [bloodCfgScenario])
      (by norm_num [bloodCfgScenario]),
   claim_C5_bounded_state.2.2.2 ⟨50, 100, 1, 1⟩ ⟨1, 0⟩ 0 1 (by norm_num)⟩

/-- Claim C4 (confirmed): within a tick the gland inhibition read at step
2 of run_tick is exactly the vagal tone stored in the vitals state
before the tick began, never the one this tick computes; the vagal tone
the Vitals step computes and returns during tick n is stored in the new
engine state, and it is exactly the inhibition value the following tick
reads - a one-tick-delayed feedback loop. -/
theorem claim_C4_vagal_one_tick_delay (cfg : PhysioCfg) (rnd : ℝ → ℕ → ℝ)
    (u1 u2 : String → ℝ) (s : EngineState) (c1 c2 z1 z2 : List (String × ℝ))
    (h1 h2 dt1 dt2 : ℝ) :
    runTick cfg rnd u1 s c1 z1 h1 dt1
      = runTickAux cfg rnd u1 s c1 z1 h1 dt1 s.vitals.vagus_tone
    ∧ tickInhibition (runTick cfg rnd u1 s c1 z1 h1 dt1).1
      = (runTick cfg rnd u1 s c1 z1 h1 dt1).2.vitals.vagus_tone
    ∧ runTick cfg rnd u2 (runTick cfg rnd u1 s c1 z1 h1 dt1).1 c2 z2 h2 dt2
      = runTickAux cfg rnd u2 (runTick cfg rnd u1 s c1 z1 h1 dt1).1 c2 z2 h2 dt2
          ((runTick cfg rnd u1 s c1 z1 h1 dt1).2.vitals.vagus_tone) :=
  ⟨rfl, rfl, rfl⟩

/-- Claim C9 (confirmed): calling step with a non-empty list of stimulus
chunks runs the single-map tick once per chunk in list order - threading
the engine state and giving every tick the same full dt and its own
noise draw - and returns the tick result of the last chunk. -/
theorem claim_C9_chunked_sequential (cfg : PhysioCfg) (rnd : ℝ → ℕ → ℝ)
    (noise : ℕ → String → ℝ) (z : List (String × ℝ)) (hour dt : ℝ) :
    ∀ (init : List (List (String × ℝ))) (lastC : List (String × ℝ))
      (i : ℕ) (s : EngineState),
      stepChunks cfg rnd noise z hour dt i s (init ++ [lastC])
        = (runTicksInOrder cfg rnd noise z hour dt i s (init ++ [lastC]),
           some (runTick cfg rnd (noise (i + init.length))
             (runTicksInOrder cfg rnd noise z hour dt i s init) lastC z hour dt).2) := by
  intro init
  induction init with
  | nil =>
    intro lastC i s
    simp [stepChunks, runTicksInOrder]
  | cons c rest ih =>
    intro lastC i s
    have hstep : stepChunks cfg rnd noise z hour dt i s ((c :: rest) ++ [lastC])
        = stepChunks cfg rnd noise z hour dt (i + 1)
            (runTick cfg rnd (noise i) s c z hour dt).1 (rest ++ [lastC]) := by
      cases rest with
      | nil => rfl
      | cons d tail => rfl
    rw [hstep, ih]
    have hidx : i + 1 + rest.length = i + (c :: rest).length := by
      simp [List.length_cons]
      omega
    rw [hidx]
    rfl

theorem hillResponse_zero : hillResponse 0 = 0 := by simp [hillResponse]

theorem exp_neg_mul_le_one (x : ℝ) (_hx : 0 ≤ x) : Real.exp (-x) * (1 + x) ≤ 1 := by
  have h := Real.add_one_le_exp x
  have he : 0 < Real.exp (-x) := Real.exp_pos _
  have h2 : Real.exp (-x) * (1 + x) ≤ Real.exp (-x) * Real.exp x := by
    apply mul_le_mul_of_nonneg_left _ he.le
    linarith
  rwa [← Real.exp_add, neg_add_cancel, Real.exp_zero] at h2

theorem calibratedBasal_scenario :
    calibratedBasalRate 3000 600 0.1 = Real.log 2 * (1/2) := by
  unfold calibratedBasalRate
  rw [max_eq_right (by norm_num : (1:ℝ) ≤ 600)]
  ring

theorem calibratedBasal_scenario_bounds :
    0.34 ≤ calibratedBasalRate 3000 600 0.1
    ∧ calibratedBasalRate 3000 600 0.1 ≤ 0.35 := by
  rw [calibratedBasal_scenario]
  constructor
  · nlinarith [Real.log_two_gt_d9]
  · nlinarith [Real.log_two_lt_d9]

theorem decayRateK_scenario (flow : ℝ) :
    decayRateK bloodCfgScenario 600 flow = Real.log 2 / 600 := by
  unfold decayRateK bloodCfgScenario
  norm_num


set_option maxHeartbeats 1000000 in
/-- Claim C2 (code bug): with the scenario hormone of the specification
(baseline 0.1 pg/mL, half-life 600 s, distribution volume 3000 mL) and
its calibrated basal rate, one engine tick of one second with stimulus 0
(the gland release and the separate basal injection of run_tick,
followed by the blood decay step and the baseline clamp, exactly as in
run_tick steps 3 to 4b for this hormone) ends with the plasma value
pinned at 0.1 x 3000 = 300, for every starting concentration up to 300 -
in particular from the initial baseline 0.1 and from 300 itself - for
every noise draw in [-0.1, 0.1], every inhibition and every flow. The
concentration therefore never converges to the baseline 0.1: it is held
at 3000 times the baseline from the first tick on. -/
theorem claim_C2_pinned_at_floor (g : GlandSpec) (st : GlandState)
    (c u inh flow : ℝ)
    (hbase : g.baseline_pg_ml = 0.1)
    (hrate : st.basal_rate_pg_sec = calibratedBasalRate 3000 600 0.1)
    (hdrive : st.drive = 0)
    (hinv1 : 1 ≤ st.inventory) (hinvM : st.inventory ≤ g.inventory_max)
    (hrefill : 0 ≤ g.refill_rate)
    (hc0 : 0 ≤ c) (hc300 : c ≤ 300)
    (hu1 : -0.1 ≤ u) (hu2 : u ≤ 0.1) :
    baselineClamp 3000 g.baseline_pg_ml
      (applyDecayWithDt bloodCfgScenario 600 flow 1
        (applyHormoneInflux bloodCfgScenario
          (applyHormoneInflux bloodCfgScenario c (processStep g st 0 1 inh u).1)
          (calibratedBasalRate 3000 600 0.1 * 1)))
      = 0.1 * 3000
    ∧ ((0.1 : ℝ) * 3000) ≠ 0.1 := by
  obtain ⟨hK0, hK1⟩ := calibratedBasal_scenario_bounds
  have hsb0 : 0.34 ≤ st.basal_rate_pg_sec := by rw [hrate]; exact hK0
  have hsb1 : st.basal_rate_pg_sec ≤ 0.35 := by rw [hrate]; exact hK1
  have hm1 : max (0 : ℝ) (min 0.9 inh) ≤ 0.9 := max_le (by norm_num) (min_le_left _ _)
  have hm0 : (0 : ℝ) ≤ max 0 (min 0.9 inh) := le_max_left _ _
  have hM0 : (0.1 : ℝ) ≤ 1 - max 0 (min 0.9 inh) := by linarith
  have hM1 : (1 : ℝ) - max 0 (min 0.9 inh) ≤ 1 := by linarith
  have hn0 : (0.9 : ℝ) ≤ 1 + u := by linarith
  have hn1 : (1 : ℝ) + u ≤ 1.1 := by linarith
  -- the mass released by the gland at stimulus 0
  have hform : (processStep g st 0 1 inh u).1
      = min (g.max_rate_sec * hillResponse st.drive
              * min ADAPTATION_MAX (st.adaptation + 0.02 * 1) * 1
              * (1 - max 0 (min 0.9 inh))
             + st.basal_rate_pg_sec * (1 + u) * (1 - max 0 (min 0.9 inh)) * 1)
            (min g.inventory_max (st.inventory + g.refill_rate * 1)) := by
    unfold processStep
    dsimp only
    rw [if_neg (by norm_num : ¬ ((0:ℝ) > 0.05)), if_neg (by norm_num : ¬ ((0:ℝ) > 0.05))]
  have hz : g.max_rate_sec * hillResponse (0:ℝ)
      * min ADAPTATION_MAX (st.adaptation + 0.02 * 1) * 1
      * (1 - max 0 (min 0.9 inh)) = 0 := by
    rw [hillResponse_zero]; ring
  have hform2 : (processStep g st 0 1 inh u).1
      = min (st.basal_rate_pg_sec * (1 + u) * (1 - max 0 (min 0.9 inh)) * 1)
            (min g.inventory_max (st.inventory + g.refill_rate * 1)) := by
    rw [hform, hdrive, hz, zero_add]
  have hp1 : st.basal_rate_pg_sec * (1 + u) ≤ 0.35 * 1.1 :=
    mul_le_mul hsb1 hn1 (by linarith) (by norm_num)
  have hp1n : 0 ≤ st.basal_rate_pg_sec * (1 + u) :=
    mul_nonneg (by linarith) (by linarith)
  have hp2 : st.basal_rate_pg_sec * (1 + u) * (1 - max 0 (min 0.9 inh))
      ≤ 0.35 * 1.1 * 1 :=
    mul_le_mul hp1 hM1 (by linarith) (by norm_num)
  have hB0 : 0 ≤ st.basal_rate_pg_sec * (1 + u) * (1 - max 0 (min 0.9 inh)) * 1 := by
    have := mul_nonneg hp1n (show (0:ℝ) ≤ 1 - max 0 (min 0.9 inh) by linarith)
    linarith
  have hB1 : st.basal_rate_pg_sec * (1 + u) * (1 - max 0 (min 0.9 inh)) * 1 ≤ 0.39 := by
    linarith
  have hinvtot : (1 : ℝ) ≤ min g.inventory_max (st.inventory + g.refill_rate * 1) := by
    refine le_min (le_trans hinv1 hinvM) ?_
    nlinarith
  have hR0 : 0 ≤ (processStep g st 0 1 inh u).1 := by
    rw [hform2]
    exact le_min hB0 (by linarith)
  have hR1 : (processStep g st 0 1 inh u).1 ≤ 0.39 := by
    rw [hform2]
    exact le_trans (min_le_left _ _) hB1
  -- replace the released mass and the basal rate by opaque bounded values
  generalize hgenR : (processStep g st 0 1 inh u).1 = R at hR0 hR1 ⊢
  generalize hgenK : calibratedBasalRate 3000 600 0.1 = K at hK0 hK1 ⊢
  clear hgenR hgenK hform hform2 hz hsb0 hsb1 hp1 hp1n hp2 hB0 hB1 hinvtot
  clear hm0 hm1 hM0 hM1 hn0 hn1 hdrive hrate hinv1 hinvM hrefill hu1 hu2
  -- the two influx steps
  have hInf1 : applyHormoneInflux bloodCfgScenario c R = c + R / 3000 := by
    unfold applyHormoneInflux bloodCfgScenario
    dsimp only
    refine clampR_eq_self _ _ _ ?_ ?_
    · have h1 : (0:ℝ) ≤ R / 3000 := div_nonneg hR0 (by norm_num)
      linarith
    · have h1 : R / 3000 ≤ 0.39 / 3000 := by linarith
      linarith
  have hInf2 : applyHormoneInflux bloodCfgScenario (c + R / 3000) (K * 1)
      = c + R / 3000 + K * 1 / 3000 := by
    unfold applyHormoneInflux bloodCfgScenario
    dsimp only
    refine clampR_eq_self _ _ _ ?_ ?_
    · have h1 : (0:ℝ) ≤ R / 3000 := div_nonneg hR0 (by norm_num)
      have h2 : (0:ℝ) ≤ K * 1 / 3000 := by linarith
      linarith
    · have h1 : R / 3000 ≤ 0.39 / 3000 := by linarith
      have h2 : K * 1 / 3000 ≤ 0.35 / 3000 := by linarith
      linarith
  have hv0 : 0 < c + R / 3000 + K * 1 / 3000 := by
    have h1 : (0:ℝ) ≤ R / 3000 := div_nonneg hR0 (by norm_num)
    have h2 : (0.34:ℝ) / 3000 ≤ K * 1 / 3000 := by linarith
    linarith
  have hvle : c + R / 3000 + K * 1 / 3000 ≤ 300.001 := by
    have h1 : R / 3000 ≤ 0.39 / 3000 := by linarith
    have h2 : K * 1 / 3000 ≤ 0.35 / 3000 := by linarith
    linarith
  -- the decay step
  have hdec : applyDecayWithDt bloodCfgScenario 600 flow 1 (c + R / 3000 + K * 1 / 3000)
      = (c + R / 3000 + K * 1 / 3000)
        * Real.exp (-(decayRateK bloodCfgScenario 600 flow * 1)) := by
    refine applyDecay_eq_exp bloodCfgScenario 600 flow 1 _ (by norm_num) hv0 ?_ ?_
    · show c + R / 3000 + K * 1 / 3000 ≤ (10000 : ℝ)
      linarith
    · exact mul_nonneg hv0.le (Real.exp_pos _).le
  have hexpform : Real.exp (-(decayRateK bloodCfgScenario 600 flow * 1))
      = Real.exp (-(Real.log 2 / 600)) := by
    rw [decayRateK_scenario, mul_one]
  have hx0 : (0.00115 : ℝ) ≤ Real.log 2 / 600 := by
    nlinarith [Real.log_two_gt_d9]
  have hx1 : (0 : ℝ) < 1 + Real.log 2 / 600 := by linarith
  have hE0 : 0 < Real.exp (-(Real.log 2 / 600)) := Real.exp_pos _
  have hEdiv : Real.exp (-(Real.log 2 / 600)) ≤ 1 / (1 + Real.log 2 / 600) := by
    rw [le_div_iff₀ hx1]
    exact exp_neg_mul_le_one (Real.log 2 / 600) (by linarith)
  have hw : (c + R / 3000 + K * 1 / 3000) * Real.exp (-(Real.log 2 / 600)) < 300 := by
    have hw1 : (c + R / 3000 + K * 1 / 3000) * Real.exp (-(Real.log 2 / 600))
        ≤ 300.001 * (1 / (1 + Real.log 2 / 600)) :=
      mul_le_mul hvle hEdiv hE0.le (by norm_num)
    have hw2 : (300.001 : ℝ) * (1 / (1 + Real.log 2 / 600)) < 300 := by
      rw [mul_one_div, div_lt_iff₀ hx1]
      nlinarith
    linarith
  constructor
  · rw [hInf1, hInf2, hdec, hexpform, hbase]
    unfold baselineClamp
    rw [if_pos
      (show (c + R / 3000 + K * 1 / 3000) * Real.exp (-(Real.log 2 / 600)) < 0.1 * 3000
        by nlinarith)]
  · norm_num

theorem claim_C2_witness :
    baselineClamp 3000
      (GlandSpec.baseline_pg_ml ⟨1000, 1, 10, 10, 0.1, 10⟩)
      (applyDecayWithDt bloodCfgScenario 600 80 1
        (applyHormoneInflux bloodCfgScenario
          (applyHormoneInflux bloodCfgScenario 0.1
            (processStep ⟨1000, 1, 10, 10, 0.1, 10⟩
              ⟨1000, 1, 0, 0, calibratedBasalRate 3000 600 0.1⟩ 0 1 0.5 0).1)
          (calibratedBasalRate 3000 600 0.1 * 1)))
      = 0.1 * 3000
    ∧ ((0.1 : ℝ) * 3000) ≠ 0.1 :=
  claim_C2_pinned_at_floor ⟨1000, 1, 10, 10, 0.1, 10⟩
    ⟨1000, 1, 0, 0, calibratedBasalRate 3000 600 0.1⟩ 0.1 0 0.5 80
    rfl rfl rfl (by norm_num) (by norm_num) (by norm_num)
    (by norm_num) (by norm_num) (by norm_num) (by norm_num)
